import Mathlib

/-!
Formal model of `Release.js` from the node-release repository.

The source is a promise-chained release orchestrator.  We embed it shallowly:

* JS string values that may be `null`/`undefined` are `Option String` (`JsStr`);
  JS truthiness of such a value is `jsTruthy` (empty string and `null` are falsy),
  `a || b` is `jsOr`, and string coercion (as performed by `+` concatenation)
  is `jsShow` (`null` prints as "null").
* The manifest (`package.json`) is reduced to its `version` field
  (`ManifestFile`): the file can be absent, be the zero-byte file that
  `fs.ensureFileSync` creates (unparseable as JSON), or hold a version value.
* Node's `require` caches the parsed module per process; both `checkVersion`
  (line 136) and `updateVersion` (line 172) read the manifest through
  `require`, and `updateVersion` mutates the cached object in place before
  rewriting the file.  The cache is state (`Cache`).
* Each `git` invocation is a subprocess whose outcome (exit code, stdout,
  stderr) is supplied by an oracle `GitOracle`; `Release.git` (lines 21-35)
  rejects on non-zero exit with a message embedding the argument list, exit
  code and captured output, and resolves to the verbatim output otherwise.
  (`execFile` reports a non-null error exactly for abnormal termination,
  which we model as a non-zero exit code; the 30 s timeout kill is real time
  and is not modelled.)
* Promise resolution/rejection and synchronous throws become the `Outcome`
  type; the observable side effects (ensure-file, manifest writes, git
  subprocess invocations) are recorded in an event trace in program order.
* Wall-clock `releaseTime` is not modelled; the resolved value keeps the
  `releaseVersion` and `devVersion` fields.
-/

/-- A JS string variable that may hold `null`/`undefined` instead of a string. -/
abbrev JsStr := Option String

/-- JS truthiness of a string-or-null value: `null`, `undefined` and `""` are falsy. -/
def jsTruthy : JsStr → Bool
  | none => false
  | some s => s ≠ ""

/-- JS `a || b` on string-or-null values. -/
def jsOr (a b : JsStr) : JsStr := if jsTruthy a then a else b

/-- JS string coercion as performed by `+` concatenation: `null` renders as "null".
(`undefined` would render as "undefined"; in `Release.js` only `semver.inc`'s
`null` can reach a string position, so one rendering suffices.) -/
def jsShow : JsStr → String
  | none => "null"
  | some s => s

/-- Whitespace as far as JS `String.prototype.trim` is concerned (the
characters that can occur in captured git output). -/
def isWsChar (c : Char) : Bool := c = ' ' || c = '\n' || c = '\t' || c = '\r'

/-- JS `String.prototype.trim`: strip leading and trailing whitespace. -/
def jsTrim (s : String) : String :=
  String.mk (((s.data.dropWhile isWsChar).reverse.dropWhile isWsChar).reverse)

/-- Outcome of one subprocess as observed through `execFile`'s callback. -/
structure ProcOutcome where
  exitCode : Int
  stdout : String
  stderr : String
deriving DecidableEq, Repr

/-- Environment oracle: the outcome of running `git` with a given argument list. -/
abbrev GitOracle := List String → ProcOutcome

/-- The value `Release.git` resolves to on success: captured output, verbatim. -/
structure GitResult where
  stdout : String
  stderr : String
deriving DecidableEq, Repr

/-- `commands.join(' ')` from the error message of `Release.git`. -/
def gitJoin (commands : List String) : String := String.intercalate (" ") commands

/-- `Release.git` (Release.js lines 21-35): run `git` with the argument list;
reject on non-zero exit with a message embedding the full argument list, the
exit code and the captured stdout/stderr; resolve to the untrimmed captured
output on exit code zero. -/
def gitRun (oracle : GitOracle) (commands : List String) : Except String GitResult :=
  if (oracle commands).exitCode ≠ 0 then
    Except.error ("Could not execute git " ++ gitJoin commands ++
      " (exit code " ++ toString (oracle commands).exitCode ++ "); stdout:\n" ++
      (oracle commands).stdout ++ "\nstderr:\n" ++ (oracle commands).stderr)
  else
    Except.ok { stdout := (oracle commands).stdout, stderr := (oracle commands).stderr }

/-- `needle` occurs verbatim inside `hay` (the sense in which an error message
"embeds" a piece of context). -/
def embeds (needle hay : String) : Prop := needle.data <:+: hay.data

instance (needle hay : String) : Decidable (embeds needle hay) := by
  unfold embeds; infer_instance

/-- JS `version.split('.')`, on the character list of the string: split on `'.'`,
keeping empty chunks (so the result always has one more chunk than there are
separators). -/
def splitDotsL : List Char → List (List Char)
  | [] => [[]]
  | c :: rest =>
    if c = '.' then [] :: splitDotsL rest
    else
      match splitDotsL rest with
      | h :: t => (c :: h) :: t
      | [] => [[c]]

/-- JS `version.indexOf('SNAPSHOT') !== -1`: the marker occurs as a substring. -/
def containsSnapshot (v : String) : Bool := decide ("SNAPSHOT".data <:+: v.data)

/-- The three-component check exactly as `Release.checkVersion` computes it
(Release.js line 140): split the WHOLE version string on `'.'` and demand
exactly three chunks. -/
def hasThreeComponents (v : String) : Bool := (splitDotsL v.data).length == 3

/-- Modelled from the spec (§4.3 `hasThreeComponents`): split only the numeric
portion — the part of the version string before the development-marker suffix,
i.e. before the first `'-'` — on the component separator and demand exactly
three components.  This is the spec's wording, kept separate from the source's
`hasThreeComponents` so the two can be compared. -/
def specHasThreeComponents (v : String) : Bool :=
  (splitDotsL (v.data.takeWhile (fun c => c ≠ '-'))).length == 3

/-! ## Decimal numerals and the node-semver model

`Release.js` computes versions with `semver.inc(v, 'patch')`.  node-semver
parses `major.minor.patch[-prerelease]`, and for `'patch'` it drops a
non-empty prerelease without bumping, and bumps the patch component
otherwise.  We model the strict grammar used by the release flow (three
decimal components without leading zeros, an optional dash-separated
prerelease of alphanumeric/dash identifiers; build metadata and loose
parsing are out of scope for every version the orchestrator can produce). -/

/-- Decimal digit character for a value below ten. -/
def digitChar (d : Nat) : Char :=
  match d with
  | 0 => '0' | 1 => '1' | 2 => '2' | 3 => '3' | 4 => '4'
  | 5 => '5' | 6 => '6' | 7 => '7' | 8 => '8' | _ => '9'

/-- Numeric value of a decimal digit character. -/
def charVal (c : Char) : Nat := c.toNat - 48

/-- Fuel-driven accumulator loop for decimal rendering (structural recursion,
so that it evaluates inside the kernel). -/
def renderNatAux (fuel n : Nat) (acc : List Char) : List Char :=
  match fuel with
  | 0 => acc
  | fuel + 1 =>
    if n < 10 then digitChar n :: acc
    else renderNatAux fuel (n / 10) (digitChar (n % 10) :: acc)

/-- Standard decimal rendering of a natural number, most significant digit first. -/
def renderNat (n : Nat) : List Char := renderNatAux (n + 1) n []

theorem renderNatAux_acc (fuel : Nat) :
    ∀ n acc, n < fuel → renderNatAux fuel n acc = renderNatAux fuel n [] ++ acc := by
  induction fuel with
  | zero => intro n acc h; omega
  | succ fuel ih =>
    intro n acc h
    by_cases h10 : n < 10
    · simp [renderNatAux, h10]
    · have hlt : n / 10 < fuel := by omega
      simp only [renderNatAux, if_neg h10]
      rw [ih (n / 10) (digitChar (n % 10) :: acc) hlt,
          ih (n / 10) ([digitChar (n % 10)]) hlt]
      simp

theorem renderNatAux_fuel (f1 : Nat) :
    ∀ f2 n, n < f1 → n < f2 → renderNatAux f1 n [] = renderNatAux f2 n [] := by
  induction f1 with
  | zero => intro f2 n h; omega
  | succ f1 ih =>
    intro f2 n h1 h2
    cases f2 with
    | zero => omega
    | succ f2 =>
      by_cases h10 : n < 10
      · simp [renderNatAux, h10]
      · have hlt : n / 10 < n := Nat.div_lt_self (by omega) (by omega)
        simp only [renderNatAux, if_neg h10]
        rw [renderNatAux_acc f1 (n / 10) _ (by omega),
            renderNatAux_acc f2 (n / 10) _ (by omega)]
        rw [ih f2 (n / 10) (by omega) (by omega)]

theorem renderNat_eq (n : Nat) :
    renderNat n = if n < 10 then [digitChar n] else renderNat (n / 10) ++ [digitChar (n % 10)] := by
  by_cases h10 : n < 10
  · simp [renderNat, renderNatAux, h10]
  · have hlt : n / 10 < n := Nat.div_lt_self (by omega) (by omega)
    rw [if_neg h10]
    show renderNatAux (n + 1) n [] = _
    rw [show renderNatAux (n + 1) n [] =
          renderNatAux n (n / 10) (digitChar (n % 10) :: []) from by
      simp [renderNatAux, h10]]
    rw [renderNatAux_acc n (n / 10) _ (by omega)]
    rw [renderNatAux_fuel n (n / 10 + 1) (n / 10) (by omega) (by omega)]
    rfl

theorem digitChar_isDigit {d : Nat} (h : d < 10) : (digitChar d).isDigit = true := by
  interval_cases d <;> decide

theorem charVal_digitChar {d : Nat} (h : d < 10) : charVal (digitChar d) = d := by
  interval_cases d <;> decide

theorem renderNat_ne_nil (n : Nat) : renderNat n ≠ [] := by
  rw [renderNat_eq]; split <;> simp

theorem renderNat_all_digits (n : Nat) : ∀ c ∈ renderNat n, c.isDigit = true := by
  induction n using Nat.strong_induction_on with
  | _ n ih =>
    rw [renderNat_eq]
    split
    · next h => intro c hc; simp at hc; subst hc; exact digitChar_isDigit h
    · next h =>
      intro c hc
      rw [List.mem_append] at hc
      rcases hc with hc | hc
      · exact ih (n / 10) (Nat.div_lt_self (by omega) (by omega)) c hc
      · simp at hc; subst hc; exact digitChar_isDigit (Nat.mod_lt _ (by omega))

/-- One step of the JS-style decimal accumulation. -/
def parseStep (acc : Nat) (c : Char) : Nat := 10 * acc + charVal c

/-- Decimal value of a digit string. -/
def parseNatCore (l : List Char) : Nat := l.foldl parseStep 0

/-- A multi-character numeral starting with `'0'` (rejected by strict semver). -/
def leadingZero (l : List Char) : Bool :=
  match l with
  | c :: _ :: _ => c = '0'
  | _ => false

/-- Strict semver numeric identifier: non-empty, all digits, no leading zero. -/
def parseNat? (l : List Char) : Option Nat :=
  if l = [] then none
  else if ¬ (l.all (fun c => c.isDigit)) then none
  else if leadingZero l then none
  else some (parseNatCore l)

theorem foldl_parseStep_renderNat (n : Nat) :
    ∀ a : Nat, List.foldl parseStep a (renderNat n) = a * 10 ^ (renderNat n).length + n := by
  induction n using Nat.strong_induction_on with
  | _ n ih =>
    intro a
    by_cases h : n < 10
    · rw [renderNat_eq]; simp [h, parseStep, charVal_digitChar h]; ring
    · rw [renderNat_eq, if_neg h]
      simp only [List.foldl_append, List.foldl_cons,
        List.foldl_nil, List.length_append, List.length_cons, List.length_nil]
      rw [ih (n / 10) (Nat.div_lt_self (by omega) (by omega)) a]
      have hmod : charVal (digitChar (n % 10)) = n % 10 :=
        charVal_digitChar (Nat.mod_lt _ (by omega))
      simp only [parseStep, hmod]
      have hdm : 10 * (n / 10) + n % 10 = n := Nat.div_add_mod n 10
      calc 10 * (a * 10 ^ (renderNat (n / 10)).length + n / 10) + n % 10
          = a * 10 ^ ((renderNat (n / 10)).length + 1) + (10 * (n / 10) + n % 10) := by ring
        _ = a * 10 ^ ((renderNat (n / 10)).length + 1) + n := by rw [hdm]

theorem parseNatCore_renderNat (n : Nat) : parseNatCore (renderNat n) = n := by
  unfold parseNatCore
  simpa using foldl_parseStep_renderNat n 0

theorem renderNat_head_ne_zero (n : Nat) (hn : 1 ≤ n) :
    (renderNat n).head? ≠ some '0' := by
  induction n using Nat.strong_induction_on with
  | _ n ih =>
    by_cases h : n < 10
    · rw [renderNat_eq, if_pos h]; simp only [List.head?_cons]
      interval_cases n <;> decide
    · rw [renderNat_eq, if_neg h]
      cases hL : renderNat (n / 10) with
      | nil => exact absurd hL (renderNat_ne_nil _)
      | cons b t =>
        have hb := ih (n / 10) (Nat.div_lt_self (by omega) (by omega)) (by omega)
        rw [hL] at hb
        simpa using hb

theorem leadingZero_renderNat (n : Nat) : leadingZero (renderNat n) = false := by
  by_cases h : n < 10
  · rw [renderNat_eq, if_pos h]; simp [leadingZero]
  · rw [renderNat_eq, if_neg h]
    cases hL : renderNat (n / 10) with
    | nil => exact absurd hL (renderNat_ne_nil _)
    | cons b t =>
      have hb := renderNat_head_ne_zero (n / 10) (by omega)
      rw [hL] at hb; simp at hb
      cases t with
      | nil => simp [leadingZero, hb]
      | cons b2 t2 => simp [leadingZero, hb]

theorem parseNat?_renderNat (n : Nat) : parseNat? (renderNat n) = some n := by
  unfold parseNat?
  rw [if_neg (renderNat_ne_nil n)]
  rw [if_neg (by simpa [List.all_eq_true] using renderNat_all_digits n)]
  rw [if_neg (by simp [leadingZero_renderNat])]
  rw [parseNatCore_renderNat]

theorem isDigit_ne_dot {c : Char} (h : c.isDigit = true) : c ≠ '.' := by
  intro hc; subst hc; simp [Char.isDigit] at h

theorem isDigit_ne_dash {c : Char} (h : c.isDigit = true) : c ≠ '-' := by
  intro hc; subst hc; simp [Char.isDigit] at h

/-! ### Facts about `splitDotsL`, `takeWhile` and `dropWhile` on dot-free prefixes -/

theorem splitDotsL_ne_nil (l : List Char) : splitDotsL l ≠ [] := by
  induction l with
  | nil => simp [splitDotsL]
  | cons c rest ih =>
    simp only [splitDotsL]
    split
    · simp
    · split
      · simp
      · simp

theorem splitDotsL_cons_dot (l : List Char) : splitDotsL ('.' :: l) = [] :: splitDotsL l := by
  simp [splitDotsL]

theorem splitDotsL_append_noDot (a l : List Char) (ha : ∀ c ∈ a, c ≠ '.') :
    splitDotsL (a ++ l) = (a ++ (splitDotsL l).headI) :: (splitDotsL l).tail := by
  induction a with
  | nil =>
    cases hsp : splitDotsL l with
    | nil => exact absurd hsp (splitDotsL_ne_nil l)
    | cons h t => simp [hsp]
  | cons c a ih =>
    have hc : c ≠ '.' := ha c (by simp)
    have ha' : ∀ x ∈ a, x ≠ '.' := fun x hx => ha x (by simp [hx])
    simp only [List.cons_append, splitDotsL, if_neg hc, List.append_eq]
    rw [ih ha']

theorem splitDotsL_noDot (a : List Char) (ha : ∀ c ∈ a, c ≠ '.') :
    splitDotsL a = [a] := by
  have := splitDotsL_append_noDot a [] ha
  simpa [splitDotsL] using this

theorem takeWhile_append_all {p : Char → Bool} (a l : List Char)
    (ha : ∀ c ∈ a, p c = true) : (a ++ l).takeWhile p = a ++ l.takeWhile p := by
  induction a with
  | nil => rfl
  | cons c a ih =>
    have hc : p c = true := ha c (by simp)
    have ha' : ∀ x ∈ a, p x = true := fun x hx => ha x (by simp [hx])
    simp [List.takeWhile, hc, ih ha']

theorem dropWhile_append_all {p : Char → Bool} (a l : List Char)
    (ha : ∀ c ∈ a, p c = true) : (a ++ l).dropWhile p = l.dropWhile p := by
  induction a with
  | nil => rfl
  | cons c a ih =>
    have hc : p c = true := ha c (by simp)
    have ha' : ∀ x ∈ a, p x = true := fun x hx => ha x (by simp [hx])
    simp [List.dropWhile, hc, ih ha']

theorem takeWhile_cons_false {p : Char → Bool} (c : Char) (l : List Char)
    (hc : p c = false) : (c :: l).takeWhile p = [] := by
  simp [List.takeWhile, hc]

theorem dropWhile_cons_false {p : Char → Bool} (c : Char) (l : List Char)
    (hc : p c = false) : (c :: l).dropWhile p = c :: l := by
  simp [List.dropWhile, hc]

/-! ### The semver model -/

/-- Parsed `major.minor.patch[-prerelease]` version. -/
structure SemverParts where
  major : Nat
  minor : Nat
  patch : Nat
  prerelease : Option (List Char)
deriving DecidableEq, Repr

/-- Allowed character of a semver prerelease identifier. -/
def preIdentChar (c : Char) : Bool := c.isAlphanum || c = '-'

/-- Validity of the prerelease part: dot-separated, non-empty identifiers of
alphanumerics and dashes.  (Strict semver additionally forbids leading zeros
in numeric identifiers; no version the orchestrator manipulates has a numeric
prerelease identifier, so that refinement is omitted.) -/
def preValid (l : List Char) : Bool :=
  decide (l ≠ []) && (splitDotsL l).all (fun id => decide (id ≠ []) && id.all preIdentChar)

/-- Strict semver parse of `X.Y.Z[-prerelease]`: the part before the first
dash must split on dots into exactly three numeric components. -/
def parseSemver (v : String) : Option SemverParts :=
  match splitDotsL (v.data.takeWhile (fun c => c ≠ '-')) with
  | [a, b, c] =>
    match parseNat? a, parseNat? b, parseNat? c with
    | some x, some y, some z =>
      match v.data.dropWhile (fun c => c ≠ '-') with
      | [] => some ⟨x, y, z, none⟩
      | _ :: pre => if preValid pre then some ⟨x, y, z, some pre⟩ else none
    | _, _, _ => none
  | _ => none

/-- The canonical rendering `X.Y.Z` of a version core, as node-semver prints it. -/
def renderCore (x y z : Nat) : String :=
  String.mk (renderNat x ++ '.' :: (renderNat y ++ '.' :: renderNat z))

/-- `semver.inc(v, 'patch')` of node-semver: `null` on an unparseable version;
on a version with a non-empty prerelease, drop the prerelease and keep the
numeric components; otherwise increment the patch component. -/
def semverIncPatch (v : String) : Option String :=
  match parseSemver v with
  | none => none
  | some p =>
    match p.prerelease with
    | some _ => some (renderCore p.major p.minor p.patch)
    | none => some (renderCore p.major p.minor (p.patch + 1))

/-! ### Evaluation of the semver model on canonical versions -/

theorem renderNat_noDot (n : Nat) : ∀ c ∈ renderNat n, c ≠ '.' :=
  fun c hc => isDigit_ne_dot (renderNat_all_digits n c hc)

theorem renderNat_noDash (n : Nat) : ∀ c ∈ renderNat n, c ≠ '-' :=
  fun c hc => isDigit_ne_dash (renderNat_all_digits n c hc)

theorem renderCore_data (x y z : Nat) :
    (renderCore x y z).data = renderNat x ++ '.' :: (renderNat y ++ '.' :: renderNat z) := rfl

theorem mem_coreL_ne_dash (x y z : Nat) :
    ∀ c ∈ renderNat x ++ '.' :: (renderNat y ++ '.' :: renderNat z),
      (fun c => decide (c ≠ '-')) c = true := by
  intro c hc
  simp only [List.mem_append, List.mem_cons] at hc
  simp only [decide_eq_true_eq]
  rcases hc with h | h | h | h | h
  · exact isDigit_ne_dash (renderNat_all_digits x c h)
  · subst h; decide
  · exact isDigit_ne_dash (renderNat_all_digits y c h)
  · subst h; decide
  · exact isDigit_ne_dash (renderNat_all_digits z c h)

theorem takeWhile_all {p : Char → Bool} (a : List Char) (ha : ∀ c ∈ a, p c = true) :
    a.takeWhile p = a := by
  have := takeWhile_append_all a [] ha
  simpa using this

theorem dropWhile_all {p : Char → Bool} (a : List Char) (ha : ∀ c ∈ a, p c = true) :
    a.dropWhile p = [] := by
  have := dropWhile_append_all a [] ha
  simpa using this

theorem splitDotsL_coreL (x y z : Nat) :
    splitDotsL (renderNat x ++ '.' :: (renderNat y ++ '.' :: renderNat z)) =
      [renderNat x, renderNat y, renderNat z] := by
  rw [splitDotsL_append_noDot _ _ (renderNat_noDot x), splitDotsL_cons_dot,
      splitDotsL_append_noDot _ _ (renderNat_noDot y), splitDotsL_cons_dot,
      splitDotsL_noDot _ (renderNat_noDot z)]
  simp

theorem parseSemver_renderCore (x y z : Nat) :
    parseSemver (renderCore x y z) = some ⟨x, y, z, none⟩ := by
  unfold parseSemver
  rw [renderCore_data x y z]
  rw [takeWhile_all _ (mem_coreL_ne_dash x y z), dropWhile_all _ (mem_coreL_ne_dash x y z)]
  rw [splitDotsL_coreL]
  simp [parseNat?_renderNat]

theorem snapshot_append_data (x y z : Nat) :
    (renderCore x y z ++ "-SNAPSHOT").data =
      (renderNat x ++ '.' :: (renderNat y ++ '.' :: renderNat z)) ++ '-' :: "SNAPSHOT".data := by
  rw [String.data_append, renderCore_data]

theorem parseSemver_snapshot (x y z : Nat) :
    parseSemver (renderCore x y z ++ "-SNAPSHOT") = some ⟨x, y, z, some ("SNAPSHOT".data)⟩ := by
  unfold parseSemver
  rw [snapshot_append_data x y z]
  rw [takeWhile_append_all _ _ (mem_coreL_ne_dash x y z),
      takeWhile_cons_false _ _ (by decide),
      dropWhile_append_all _ _ (mem_coreL_ne_dash x y z),
      dropWhile_cons_false _ _ (by decide)]
  rw [List.append_nil, splitDotsL_coreL]
  simp [parseNat?_renderNat]
  decide

theorem semverIncPatch_snapshot (x y z : Nat) :
    semverIncPatch (renderCore x y z ++ "-SNAPSHOT") = some (renderCore x y z) := by
  unfold semverIncPatch
  rw [parseSemver_snapshot]

theorem semverIncPatch_renderCore (x y z : Nat) :
    semverIncPatch (renderCore x y z) = some (renderCore x y (z + 1)) := by
  unfold semverIncPatch
  rw [parseSemver_renderCore]

theorem containsSnapshot_snapshot (x y z : Nat) :
    containsSnapshot (renderCore x y z ++ "-SNAPSHOT") = true := by
  unfold containsSnapshot
  rw [decide_eq_true_eq, snapshot_append_data x y z]
  exact ⟨(renderNat x ++ '.' :: (renderNat y ++ '.' :: renderNat z)) ++ ['-'], [], by simp⟩

theorem splitDots_snapshot_len (x y z : Nat) :
    (splitDotsL (renderCore x y z ++ "-SNAPSHOT").data).length = 3 := by
  rw [snapshot_append_data x y z]
  have hassoc :
      (renderNat x ++ '.' :: (renderNat y ++ '.' :: renderNat z)) ++ '-' :: "SNAPSHOT".data =
        renderNat x ++ '.' :: (renderNat y ++ '.' :: (renderNat z ++ '-' :: "SNAPSHOT".data)) := by
    simp
  rw [hassoc]
  have hsnap : ∀ c ∈ "SNAPSHOT".data, c ≠ '.' := by decide
  have hz : ∀ c ∈ renderNat z ++ '-' :: "SNAPSHOT".data, c ≠ '.' := by
    intro c hc
    rw [List.mem_append, List.mem_cons] at hc
    rcases hc with h | h | h
    · exact isDigit_ne_dot (renderNat_all_digits z c h)
    · subst h; decide
    · exact hsnap c h
  rw [splitDotsL_append_noDot _ _ (renderNat_noDot x), splitDotsL_cons_dot,
      splitDotsL_append_noDot _ _ (renderNat_noDot y), splitDotsL_cons_dot,
      splitDotsL_noDot _ hz]
  simp

/-! ## State, events and the release orchestrator -/

/-- The manifest file (`package.json`), reduced to its `version` field:
absent, the zero-byte file `fs.ensureFileSync` creates (not parseable as
JSON), or a JSON file whose `version` field is `v` (`none` = field absent
or `null`). -/
inductive ManifestFile where
  | absent
  | empty
  | file (version : JsStr)
deriving DecidableEq, Repr

/-- Node's per-process module cache for `require(projectRoot+'/package.json')`:
`none` when the module has not been loaded (a failed load is not cached);
`some v` when the cached exports object currently has version field `v`.
`updateVersion` mutates that cached object in place. -/
abbrev Cache := Option JsStr

/-- Observable side effects of one `perform` call, in program order. -/
inductive Event where
  | ensureFile (created : Bool)
  | writeManifest (version : JsStr)
  | git (args : List String)
deriving DecidableEq, Repr

/-- Mutable world state threaded through the model: the manifest file on
disk, the `require` cache, and the recorded event trace. -/
structure St where
  fs : ManifestFile
  cache : Cache
  trace : List Event
deriving DecidableEq, Repr

/-- Outcome of the caller-supplied build / post-release step: it either
completes (synchronously or via a resolving promise) or fails (throws or
rejects) with an error value, modelled by its string rendering. -/
inductive StepOutcome where
  | success
  | failure (msg : String)
deriving DecidableEq, Repr

/-- The `buildPromise` configuration value: absent is `none`; present but not
callable (`typeof !== 'function'`) is `nonFunction`. -/
inductive BuildPromise where
  | function (outcome : StepOutcome)
  | nonFunction
deriving DecidableEq, Repr

/-- The release configuration object handed to `Release.perform`.  Only the
fields the orchestrator reads are modelled; `config.debug` merely toggles
logging and is omitted. -/
structure Config where
  projectPath : JsStr
  buildPromise : Option BuildPromise
  postReleasePromise : Option StepOutcome
  releaseVersion : JsStr
  nextDevVersion : JsStr
deriving DecidableEq, Repr

/-- What a `perform` invocation ultimately does: throw synchronously during
validation, reject its promise with an error, or resolve.  (`releaseTime`,
wall-clock milliseconds, is not modelled.) -/
structure ReleaseResult where
  releaseVersion : JsStr
  devVersion : JsStr
deriving DecidableEq, Repr

inductive Outcome where
  | thrown (msg : String)
  | rejected (msg : String)
  | resolved (result : ReleaseResult)
deriving DecidableEq, Repr

/-- Run one git subprocess: record the invocation and return `Release.git`'s
settled value. -/
def stGit (oracle : GitOracle) (commands : List String) (st : St) :
    St × Except String GitResult :=
  ({ st with trace := st.trace ++ [Event.git commands] }, gitRun oracle commands)

/-- `require(projectRoot+'/package.json')`, returning the `version` field:
served from the module cache when the module is already loaded, otherwise
loaded from disk (and cached on success; a load that throws caches nothing). -/
def requireManifest (st : St) : St × Except String JsStr :=
  match st.cache with
  | some v => (st, Except.ok v)
  | none =>
    match st.fs with
    | ManifestFile.absent => (st, Except.error ("Cannot find module package.json"))
    | ManifestFile.empty => (st, Except.error ("Unexpected end of JSON input"))
    | ManifestFile.file v => ({ st with cache := some v }, Except.ok v)

/-- `Release.checkVersion` (lines 133-145): read the version through
`require`; reject when it lacks the SNAPSHOT marker, then when splitting the
whole string on `'.'` does not give exactly three chunks (the first
rejection of a q promise wins); otherwise resolve to the version. -/
def checkVersion (st : St) : St × Except String String :=
  match requireManifest st with
  | (st1, Except.error e) => (st1, Except.error e)
  | (st1, Except.ok none) =>
      (st1, Except.error ("Cannot read property indexOf of undefined"))
  | (st1, Except.ok (some v)) =>
    if containsSnapshot v = false then
      (st1, Except.error
        ("Can not release a non-SNAPSHOT version; update package.json version prior to release"))
    else if (splitDotsL v.data).length ≠ 3 then
      (st1, Except.error
        ("Project version must be semver compliant and have a patch version (e.g. 1.0.0-SNAPSHOT)"))
    else (st1, Except.ok v)

/-- `Release.checkUncommitted` (lines 151-162): `git status --porcelain`;
any output means outstanding changes and rejects. -/
def checkUncommitted (oracle : GitOracle) (st : St) : St × Except String Unit :=
  match stGit oracle (["status", "--porcelain"]) st with
  | (st1, Except.error e) => (st1, Except.error e)
  | (st1, Except.ok r) =>
    if r.stdout.length > 0 then
      (st1, Except.error
        ("Outstanding git changes present; commit all changes prior to running a release:\n"
          ++ r.stdout))
    else (st1, Except.ok ())

/-- `Release.readCurrentCommit` (lines 53-65): `git rev-parse --verify HEAD`,
trimmed; an empty result rejects. -/
def readCurrentCommit (oracle : GitOracle) (st : St) : St × Except String String :=
  match stGit oracle (["rev-parse", "--verify", "HEAD"]) st with
  | (st1, Except.error e) => (st1, Except.error e)
  | (st1, Except.ok r) =>
    if jsTrim r.stdout ≠ "" then (st1, Except.ok (jsTrim r.stdout))
    else (st1, Except.error ("Could not read current commit."))

/-- `Release.readCurrentBranch` (lines 71-83): `git rev-parse --abbrev-ref HEAD`,
trimmed; an empty result rejects. -/
def readCurrentBranch (oracle : GitOracle) (st : St) : St × Except String String :=
  match stGit oracle (["rev-parse", "--abbrev-ref", "HEAD"]) st with
  | (st1, Except.error e) => (st1, Except.error e)
  | (st1, Except.ok r) =>
    if jsTrim r.stdout ≠ "" then (st1, Except.ok (jsTrim r.stdout))
    else (st1, Except.error ("Could not read current branch."))

/-- `Release.updateVersion` (lines 169-177): `require` the manifest, mutate the
cached object's `version` field, and rewrite the file (`fs.writeJsonSync`).
A `require` failure inside the promise executor rejects. -/
def updateVersion (newVersion : JsStr) (st : St) : St × Except String Unit :=
  match requireManifest st with
  | (st1, Except.error e) => (st1, Except.error e)
  | (st1, Except.ok _) =>
    ({ st1 with cache := some newVersion,
                fs := ManifestFile.file newVersion,
                trace := st1.trace ++ [Event.writeManifest newVersion] },
     Except.ok ())

/-- `Release.commit` (lines 184-187): `git commit package.json -m <message>`. -/
def commit (oracle : GitOracle) (message : String) (st : St) :
    St × Except String GitResult :=
  stGit oracle (["commit", "package.json", "-m", message]) st

/-- `Release.tag` (lines 195-200): `git tag -a -m <message> <version>`,
resolving to the tag name (the version argument).  One modelling nuance: when
the picked release version is JS `null` (only possible for a version string
that passes `checkVersion` but is not valid semver, e.g. `1.2-SNAPSHOT.3`),
the model renders the tag argument as the string "null", whereas real
`execFile` raises a TypeError on a non-string argument inside the promise
executor, rejecting the chain at this same step — in both cases the
release-version manifest write and the release commit have already happened,
which is all any claim relies on for such versions. -/
def tag (oracle : GitOracle) (message version : String) (st : St) :
    St × Except String String :=
  match stGit oracle (["tag", "-a", "-m", message, version]) st with
  | (st1, Except.error e) => (st1, Except.error e)
  | (st1, Except.ok _) => (st1, Except.ok version)

/-- `Release.push` (lines 208-211): `git push <remote> <ref>`. -/
def push (oracle : GitOracle) (remote ref : String) (st : St) :
    St × Except String GitResult :=
  stGit oracle (["push", remote, ref]) st

/-- Error state captured by `perform`'s catch handler: the triggering error
together with the `preReleaseCommit` and `releaseTagName` closure variables
as recorded at the point of failure (`null` when never assigned). -/
structure RollbackInfo where
  message : String
  preReleaseCommit : JsStr
  releaseTagName : JsStr
deriving DecidableEq, Repr

/-- Release.js line 271: `config.releaseVersion || semver.inc(devVersion, 'patch')`. -/
def pickReleaseVersion (override : JsStr) (devVersion : String) : JsStr :=
  jsOr override (semverIncPatch devVersion)

/-- Release.js line 307:
`config.nextDevVersion || semver.inc(releaseVersion, 'patch') + '-SNAPSHOT'`
(`semver.inc(null)` is `null`, which string concatenation renders as "null"). -/
def pickNextDevVersion (override : JsStr) (releaseVersion : JsStr) : JsStr :=
  jsOr override (some (jsShow (Option.bind releaseVersion semverIncPatch) ++ "-SNAPSHOT"))

/-- The promise chain of `Release.perform` after validation (Release.js lines
249-334): each step is gated on the success of the previous one; any error
short-circuits to the catch handler, carrying the `preReleaseCommit` and
`releaseTagName` recorded so far.  The version computations are the source's
lines 271 (`config.releaseVersion || semver.inc(devVersion,'patch')`) and 307
(`config.nextDevVersion || semver.inc(releaseVersion,'patch') + '-SNAPSHOT'`). -/
def mainFlow (cfg : Config) (build : StepOutcome) (oracle : GitOracle) (st : St) :
    St × Except RollbackInfo ReleaseResult :=
  match checkVersion st with
  | (st, Except.error e) => (st, Except.error ⟨e, none, none⟩)
  | (st, Except.ok devVersion) =>
  match checkUncommitted oracle st with
  | (st, Except.error e) => (st, Except.error ⟨e, none, none⟩)
  | (st, Except.ok _) =>
  match readCurrentCommit oracle st with
  | (st, Except.error e) => (st, Except.error ⟨e, none, none⟩)
  | (st, Except.ok currentCommit) =>
  match readCurrentBranch oracle st with
  | (st, Except.error e) => (st, Except.error ⟨e, some currentCommit, none⟩)
  | (st, Except.ok devBranch) =>
  match updateVersion (pickReleaseVersion cfg.releaseVersion devVersion) st with
  | (st, Except.error e) => (st, Except.error ⟨e, some currentCommit, none⟩)
  | (st, Except.ok _) =>
  match build with
  | StepOutcome.failure e => (st, Except.error ⟨e, some currentCommit, none⟩)
  | StepOutcome.success =>
  match commit oracle
      ("[release] - releasing " ++ jsShow (pickReleaseVersion cfg.releaseVersion devVersion))
      st with
  | (st, Except.error e) => (st, Except.error ⟨e, some currentCommit, none⟩)
  | (st, Except.ok _) =>
  match tag oracle
      ("[release] - " ++ jsShow (pickReleaseVersion cfg.releaseVersion devVersion) ++ " release")
      (jsShow (pickReleaseVersion cfg.releaseVersion devVersion)) st with
  | (st, Except.error e) => (st, Except.error ⟨e, some currentCommit, none⟩)
  | (st, Except.ok tagName) =>
  match (match cfg.postReleasePromise with
         | none => StepOutcome.success
         | some o => o) with
  | StepOutcome.failure e => (st, Except.error ⟨e, some currentCommit, some tagName⟩)
  | StepOutcome.success =>
  match updateVersion
      (pickNextDevVersion cfg.nextDevVersion (pickReleaseVersion cfg.releaseVersion devVersion)) st with
  | (st, Except.error e) => (st, Except.error ⟨e, some currentCommit, some tagName⟩)
  | (st, Except.ok _) =>
  match commit oracle
      ("[release] - updating dev version to "
        ++ jsShow (pickNextDevVersion cfg.nextDevVersion (pickReleaseVersion cfg.releaseVersion devVersion))) st with
  | (st, Except.error e) => (st, Except.error ⟨e, some currentCommit, some tagName⟩)
  | (st, Except.ok _) =>
  match push oracle ("origin") (jsShow (pickReleaseVersion cfg.releaseVersion devVersion)) st with
  | (st, Except.error e) => (st, Except.error ⟨e, some currentCommit, some tagName⟩)
  | (st, Except.ok _) =>
  match push oracle ("origin") devBranch st with
  | (st, Except.error e) => (st, Except.error ⟨e, some currentCommit, some tagName⟩)
  | (st, Except.ok _) =>
    (st, Except.ok
      { releaseVersion := pickReleaseVersion cfg.releaseVersion devVersion,
        devVersion := pickNextDevVersion cfg.nextDevVersion (pickReleaseVersion cfg.releaseVersion devVersion) })

/-- `Release.reset` (lines 90-105): no-op when no pre-release commit was
recorded (JS falsy check), otherwise `git reset --hard <commit>`; a git
failure propagates. -/
def resetStep (oracle : GitOracle) (commitId : JsStr) (st : St) : St × Except String Unit :=
  if jsTruthy commitId = false then (st, Except.ok ())
  else
    match stGit oracle (["reset", "--hard", jsShow commitId]) st with
    | (st1, Except.error e) => (st1, Except.error e)
    | (st1, Except.ok _) => (st1, Except.ok ())

/-- `Release.deleteTag` (lines 112-127): no-op when no tag name was recorded
(JS falsy check), otherwise `git tag -d <tagName>`; a git failure propagates. -/
def deleteTagStep (oracle : GitOracle) (tagName : JsStr) (st : St) : St × Except String Unit :=
  if jsTruthy tagName = false then (st, Except.ok ())
  else
    match stGit oracle (["tag", "-d", jsShow tagName]) st with
    | (st1, Except.error e) => (st1, Except.error e)
    | (st1, Except.ok _) => (st1, Except.ok ())

/-- `Release.perform`'s catch handler (lines 336-345): reset to the recorded
pre-release commit, then delete the recorded release tag, then
`throw new Error(error)` — a fresh error whose message is the string rendering
of the original (an `Error`'s string rendering is `"Error: " + message`).  A
failure of either rollback command propagates in place of the original error. -/
def rollback (oracle : GitOracle) (info : RollbackInfo) (st : St) : St × Outcome :=
  match resetStep oracle info.preReleaseCommit st with
  | (st1, Except.error e) => (st1, Outcome.rejected e)
  | (st1, Except.ok _) =>
    match deleteTagStep oracle info.releaseTagName st1 with
    | (st2, Except.error e) => (st2, Outcome.rejected e)
    | (st2, Except.ok _) => (st2, Outcome.rejected ("Error: " ++ info.message))

/-- Effect of `fs.ensureFileSync(projectPath+"/package.json")` (Release.js
line 231), run synchronously during validation: it CREATES a zero-byte file
when the manifest is absent and records the file-system access.  The
synchronous validation prologue checks, in order: missing config object,
missing/falsy `projectPath`, the ensure-file call, then missing or
non-callable `buildPromise`. -/
def ensuredSt (st : St) : St :=
  match st.fs with
  | ManifestFile.absent =>
    { st with fs := ManifestFile.empty, trace := st.trace ++ [Event.ensureFile true] }
  | _ => { st with trace := st.trace ++ [Event.ensureFile false] }

/-- Validation prologue continued: the thrown-message or validated-build-step
result of the checks of Release.js lines 225-237, threading the ensured state. -/
def validate (config? : Option Config) (st : St) :
    (St × String) ⊕ (St × Config × StepOutcome) :=
  match config? with
  | none => Sum.inl (st, "Release requires a configuration object")
  | some cfg =>
    if jsTruthy cfg.projectPath = false then
      Sum.inl (st, "Release requires a projectPath configuration")
    else
      match cfg.buildPromise with
      | some (BuildPromise.function outcome) => Sum.inr (ensuredSt st, cfg, outcome)
      | _ => Sum.inl (ensuredSt st, "Release requires a buildPromise function")

/-- `Release.perform` (lines 223-346): synchronous validation, then the
promise chain, whose failures all funnel into the single rollback handler. -/
def perform (config? : Option Config) (oracle : GitOracle) (st : St) : St × Outcome :=
  match validate config? st with
  | Sum.inl (st1, msg) => (st1, Outcome.thrown msg)
  | Sum.inr (st1, cfg, build) =>
    match mainFlow cfg build oracle st1 with
    | (st2, Except.ok r) => (st2, Outcome.resolved r)
    | (st2, Except.error info) => rollback oracle info st2

/-- The git environment of the repository's own test harness (test.js lines
193-212): `rev-parse --verify HEAD` answers a fixed commit, `rev-parse
--abbrev-ref HEAD` answers `master`, everything else succeeds silently. -/
def testOracle : GitOracle := fun cmds =>
  match cmds with
  | ["rev-parse", "--verify", "HEAD"] => ⟨0, "aaaaaaa\n", ""⟩
  | ["rev-parse", "--abbrev-ref", "HEAD"] => ⟨0, "master\n", ""⟩
  | _ => ⟨0, "", ""⟩

/-- Mutating version-control commands (as opposed to read-only queries such
as `status` and `rev-parse`). -/
def isMutatingGit : Event → Bool
  | Event.git (cmd :: _) =>
      cmd == "commit" || cmd == "tag" || cmd == "push" || cmd == "reset"
  | _ => false

/-- The mutating version-control commands of a trace, in order. -/
def mutatingGit (tr : List Event) : List Event := tr.filter isMutatingGit

/-! ## Shared concrete inputs -/

/-- A release configuration carrying only the mandatory fields, with a
succeeding build step and every optional field absent. -/
def cfgAuto : Config :=
  { projectPath := some ("p"),
    buildPromise := some (BuildPromise.function StepOutcome.success),
    postReleasePromise := none,
    releaseVersion := none,
    nextDevVersion := none }

/-- Fresh-process initial state: manifest on disk with the given version
field, cold `require` cache, empty trace. -/
def stOf (v : String) : St := ⟨ManifestFile.file (some v), none, []⟩

/-! ## Claim theorems -/

/-- C3: for a manifest whose version field is `1.2.3-SNAPSHOT` and a fully
successful release with no overrides, the final manifest version is
`1.2.4-SNAPSHOT` and exactly five mutating version-control commands are
issued, in order: commit of the release version, annotated tag named with
the release version, commit of the next development version, push of the
tag to origin, push of the development branch to origin. -/
theorem C3_round_trip :
    (perform (some cfgAuto) testOracle (stOf ("1.2.3-SNAPSHOT"))).1.fs
        = ManifestFile.file (some ("1.2.4-SNAPSHOT"))
    ∧ mutatingGit (perform (some cfgAuto) testOracle (stOf ("1.2.3-SNAPSHOT"))).1.trace =
        [Event.git (["commit", "package.json", "-m", "[release] - releasing 1.2.3"]),
         Event.git (["tag", "-a", "-m", "[release] - 1.2.3 release", "1.2.3"]),
         Event.git (["commit", "package.json", "-m",
           "[release] - updating dev version to 1.2.4-SNAPSHOT"]),
         Event.git (["push", "origin", "1.2.3"]),
         Event.git (["push", "origin", "master"])]
    ∧ (perform (some cfgAuto) testOracle (stOf ("1.2.3-SNAPSHOT"))).2 =
        Outcome.resolved ⟨some ("1.2.3"), some ("1.2.4-SNAPSHOT")⟩ := by
  refine ⟨?_, ?_, ?_⟩ <;> decide

/-- C4, counterexample: with a valid configuration but an absent manifest,
`perform` neither asserts existence nor throws a configuration error — it
CREATES an empty manifest file (`fs.ensureFileSync`) and proceeds; the
failure only surfaces later, asynchronously, when the empty file cannot be
parsed.  This refutes "it never creates an empty manifest file, so no
file-system state is changed by a validation failure". -/
theorem C4_counterexample :
    perform (some cfgAuto) testOracle ⟨ManifestFile.absent, none, []⟩ =
      (⟨ManifestFile.empty, none, [Event.ensureFile true]⟩,
       Outcome.rejected ("Error: Unexpected end of JSON input"))
    ∧ ManifestFile.empty ≠ ManifestFile.absent := by
  exact ⟨by decide, by decide⟩

/-- C4, amended: during validation `perform` ENSURES the manifest file exists,
creating an empty file when it is absent; absence is not a configuration
error and nothing is thrown synchronously — the release fails later, by
promise rejection, when the empty manifest fails to parse inside
`checkVersion`, and the created empty file remains on disk (rollback is a
no-op since nothing was recorded). -/
theorem C4_amended (oracle : GitOracle) (b : StepOutcome) (post : Option StepOutcome)
    (rv nv pp : JsStr) (hpp : jsTruthy pp = true) :
    perform (some ⟨pp, some (BuildPromise.function b), post, rv, nv⟩) oracle
        ⟨ManifestFile.absent, none, []⟩ =
      (⟨ManifestFile.empty, none, [Event.ensureFile true]⟩,
       Outcome.rejected ("Error: Unexpected end of JSON input")) := by
  have h1 : validate (some ⟨pp, some (BuildPromise.function b), post, rv, nv⟩)
      ⟨ManifestFile.absent, none, []⟩
      = Sum.inr (⟨ManifestFile.empty, none, [Event.ensureFile true]⟩,
          ⟨pp, some (BuildPromise.function b), post, rv, nv⟩, b) := by
    unfold validate
    simp [hpp, ensuredSt]
  unfold perform
  rw [h1]
  rfl

/-- C4 witness for the amended theorem. -/
theorem C4_amended_witness :
    perform (some ⟨some ("p"), some (BuildPromise.function StepOutcome.success),
        none, none, none⟩) testOracle ⟨ManifestFile.absent, none, []⟩ =
      (⟨ManifestFile.empty, none, [Event.ensureFile true]⟩,
       Outcome.rejected ("Error: Unexpected end of JSON input")) :=
  C4_amended testOracle StepOutcome.success none none none (some ("p")) (by decide)

/-- A configuration whose build step is absent. -/
def cfgNoBuild : Config :=
  { projectPath := some ("p"), buildPromise := none,
    postReleasePromise := none, releaseVersion := none, nextDevVersion := none }

/-- C5, counterexample: with `projectPath` present but the build step missing,
the synchronous throw happens only AFTER `fs.ensureFileSync` has run — file
I/O occurs (here it even creates the manifest file) before the throw.  This
refutes "fails ... before any file I/O occurs" for the build-step case. -/
theorem C5_counterexample :
    perform (some cfgNoBuild) testOracle ⟨ManifestFile.absent, none, []⟩ =
      (⟨ManifestFile.empty, none, [Event.ensureFile true]⟩,
       Outcome.thrown ("Release requires a buildPromise function"))
    ∧ ManifestFile.empty ≠ ManifestFile.absent := by
  exact ⟨by decide, by decide⟩

/-- C5, amended: a missing (falsy) `projectPath` throws synchronously before
any subprocess or file I/O, leaving the state untouched; a missing or
non-callable build step also throws synchronously before any subprocess is
spawned, but only after the manifest ensure-file I/O, which may create an
empty manifest file (the only state change). -/
theorem C5_amended (oracle : GitOracle) (st : St) (cfg : Config) :
    (jsTruthy cfg.projectPath = false →
      perform (some cfg) oracle st =
        (st, Outcome.thrown ("Release requires a projectPath configuration")))
    ∧ (jsTruthy cfg.projectPath = true →
      (cfg.buildPromise = none ∨ cfg.buildPromise = some BuildPromise.nonFunction) →
      perform (some cfg) oracle st =
        (ensuredSt st, Outcome.thrown ("Release requires a buildPromise function"))) := by
  obtain ⟨pp, bp, post, rv, nv⟩ := cfg
  constructor
  · intro hpp
    unfold perform validate
    simp [hpp]
  · intro hpp hbp
    rcases hbp with hbp | hbp <;>
      (simp only at hbp; subst hbp; unfold perform validate; simp [hpp])

/-- C5 witness for the amended theorem, covering both validation failures. -/
theorem C5_amended_witness :
    perform (some ⟨none, none, none, none, none⟩) testOracle (stOf ("1.0.0-SNAPSHOT")) =
      (stOf ("1.0.0-SNAPSHOT"), Outcome.thrown ("Release requires a projectPath configuration"))
    ∧ perform (some cfgNoBuild) testOracle (stOf ("1.0.0-SNAPSHOT")) =
      (ensuredSt (stOf ("1.0.0-SNAPSHOT")),
       Outcome.thrown ("Release requires a buildPromise function")) :=
  ⟨(C5_amended testOracle (stOf ("1.0.0-SNAPSHOT")) ⟨none, none, none, none, none⟩).1 (by decide),
   (C5_amended testOracle (stOf ("1.0.0-SNAPSHOT")) cfgNoBuild).2 (by decide) (Or.inl rfl)⟩

/-- C7: the orchestrator reads the manifest version through Node's `require`,
which caches the parsed module for the life of the process — so a second
`perform` in the same process does NOT see the version stored on disk.
Failing scenario evaluated here: a first attempt on version `1.0.0` fails
("Can not release a non-SNAPSHOT version; update package.json version prior
to release") and leaves `1.0.0` in the require cache; the user follows that
instruction and updates the file on disk to `1.0.1-SNAPSHOT`; the second
attempt still reads the cached `1.0.0` and fails with the same error, even
though the on-disk version is a well-formed development version. -/
theorem C7_require_cache :
    (perform (some cfgAuto) testOracle (stOf ("1.0.0"))).2 =
        Outcome.rejected
          ("Error: Can not release a non-SNAPSHOT version; update package.json version prior to release")
    ∧ (perform (some cfgAuto) testOracle (stOf ("1.0.0"))).1.cache = some (some ("1.0.0"))
    ∧ (perform (some cfgAuto) testOracle
        ⟨ManifestFile.file (some ("1.0.1-SNAPSHOT")),
         (perform (some cfgAuto) testOracle (stOf ("1.0.0"))).1.cache, []⟩).2 =
        Outcome.rejected
          ("Error: Can not release a non-SNAPSHOT version; update package.json version prior to release")
    ∧ containsSnapshot ("1.0.1-SNAPSHOT") = true
    ∧ hasThreeComponents ("1.0.1-SNAPSHOT") = true := by
  refine ⟨?_, ?_, ?_, ?_, ?_⟩ <;> decide

/-- C8, counterexample: `checkVersion` splits the WHOLE version string on the
separator, not just the numeric portion.  On `1.2.3-SNAPSHOT.1` the numeric
portion `1.2.3` has exactly three components (the spec-style check accepts),
but the source's check counts four chunks and rejects. -/
theorem C8_counterexample :
    ¬ (hasThreeComponents ("1.2.3-SNAPSHOT.1") =
        specHasThreeComponents ("1.2.3-SNAPSHOT.1")) := by
  decide

theorem splitDotsL_append_noDot_right (b : List Char) (hb : ∀ c ∈ b, c ≠ '.') :
    ∀ a : List Char, (splitDotsL (a ++ b)).length = (splitDotsL a).length := by
  intro a
  induction a with
  | nil =>
    rw [List.nil_append, splitDotsL_noDot b hb]
    simp [splitDotsL]
  | cons c a ih =>
    simp only [List.cons_append, splitDotsL]
    by_cases hc : c = '.'
    · simp [hc, ih]
    · rw [if_neg hc, if_neg hc]
      cases h1 : splitDotsL (a ++ b) with
      | nil => exact absurd h1 (splitDotsL_ne_nil _)
      | cons x xs =>
        cases h2 : splitDotsL a with
        | nil => exact absurd h2 (splitDotsL_ne_nil _)
        | cons y ys =>
          have h3 := ih
          rw [h1, h2] at h3
          simp only [List.append_eq, h1, h2]
          simpa using h3

/-- C8, amended: the three-component check of `checkVersion` splits the WHOLE
version string on the separator; it agrees with the spec's
numeric-portion-only rule exactly on versions whose development-marker suffix
(the part from the first dash on) contains no separator — for a suffix with a
separator (e.g. a dotted prerelease) the two checks differ. -/
theorem C8_amended (v : String)
    (h : (v.data.dropWhile (fun c => c ≠ '-')).all (fun c => decide (c ≠ '.')) = true) :
    hasThreeComponents v = specHasThreeComponents v := by
  unfold hasThreeComponents specHasThreeComponents
  have hb : ∀ c ∈ v.data.dropWhile (fun c => c ≠ '-'), c ≠ '.' := by
    intro c hc
    have := List.all_eq_true.mp h c hc
    simpa using this
  conv_lhs =>
    rw [show v.data
          = v.data.takeWhile (fun c => c ≠ '-') ++ v.data.dropWhile (fun c => c ≠ '-') from
        (List.takeWhile_append_dropWhile (fun c => decide (c ≠ '-')) v.data).symm]
  rw [splitDotsL_append_noDot_right _ hb]

/-- C8 witness for the amended theorem: on a plain SNAPSHOT version the
source's whole-string check and the spec's numeric-portion check agree. -/
theorem C8_amended_witness :
    hasThreeComponents ("1.2.3-SNAPSHOT") = specHasThreeComponents ("1.2.3-SNAPSHOT") :=
  C8_amended ("1.2.3-SNAPSHOT") (by decide)

theorem embeds_rfl (x : String) : embeds x x := ⟨[], [], by simp⟩

theorem embeds_append_left (x y z : String) (h : embeds x y) : embeds x (z ++ y) := by
  obtain ⟨s, t, hst⟩ := h
  exact ⟨z.data ++ s, t, by rw [String.data_append, ← hst]; simp⟩

theorem embeds_append_right (x y z : String) (h : embeds x y) : embeds x (y ++ z) := by
  obtain ⟨s, t, hst⟩ := h
  exact ⟨s, t ++ z.data, by rw [String.data_append, ← hst]; simp⟩

/-- C9: the git wrapper.  On a non-zero exit status it fails with an error
message embedding the full (space-joined) argument list, the exit code, and
the captured stdout and stderr; on a zero exit status it resolves to the
captured stdout and stderr verbatim (untrimmed). -/
theorem C9_git_wrapper (oracle : GitOracle) (commands : List String) :
    ((oracle commands).exitCode ≠ 0 →
      ∃ msg, gitRun oracle commands = Except.error msg
        ∧ embeds (gitJoin commands) msg
        ∧ embeds (toString (oracle commands).exitCode) msg
        ∧ embeds ((oracle commands).stdout) msg
        ∧ embeds ((oracle commands).stderr) msg)
    ∧ ((oracle commands).exitCode = 0 →
      gitRun oracle commands =
        Except.ok ⟨(oracle commands).stdout, (oracle commands).stderr⟩) := by
  constructor
  · intro h
    refine ⟨"Could not execute git " ++ gitJoin commands ++
      " (exit code " ++ toString (oracle commands).exitCode ++ "); stdout:\n" ++
      (oracle commands).stdout ++ "\nstderr:\n" ++ (oracle commands).stderr,
      ?_, ?_, ?_, ?_, ?_⟩
    · unfold gitRun
      rw [if_pos h]
    · exact embeds_append_right _ _ _ (embeds_append_right _ _ _ (embeds_append_right _ _ _
        (embeds_append_right _ _ _ (embeds_append_right _ _ _ (embeds_append_right _ _ _
          (embeds_append_left _ _ _ (embeds_rfl _)))))))
    · exact embeds_append_right _ _ _ (embeds_append_right _ _ _ (embeds_append_right _ _ _
        (embeds_append_right _ _ _ (embeds_append_left _ _ _ (embeds_rfl _)))))
    · exact embeds_append_right _ _ _ (embeds_append_right _ _ _
        (embeds_append_left _ _ _ (embeds_rfl _)))
    · exact embeds_append_left _ _ _ (embeds_rfl _)
  · intro h
    unfold gitRun
    rw [if_neg (by simp [h])]

/-- A git environment in which every command fails with exit code 1. -/
def failOracle : GitOracle := fun _ => ⟨1, "out", "err"⟩

/-- C9 witness: both branches of the wrapper contract at concrete inputs. -/
theorem C9_witness :
    (∃ msg, gitRun failOracle (["status"]) = Except.error msg
      ∧ embeds (gitJoin (["status"])) msg
      ∧ embeds (toString (failOracle (["status"])).exitCode) msg
      ∧ embeds ((failOracle (["status"])).stdout) msg
      ∧ embeds ((failOracle (["status"])).stderr) msg)
    ∧ gitRun testOracle (["status"]) =
        Except.ok ⟨(testOracle (["status"])).stdout, (testOracle (["status"])).stderr⟩ :=
  ⟨(C9_git_wrapper failOracle (["status"])).1 (by decide),
   (C9_git_wrapper testOracle (["status"])).2 (by decide)⟩

/-! ## Composition lemmas for `perform` -/

theorem jsOr_none (b : JsStr) : jsOr none b = b := rfl

theorem jsOr_empty (b : JsStr) : jsOr (some ("")) b = b := rfl

theorem jsOr_truthy (a b : JsStr) (h : jsTruthy a = true) : jsOr a b = a := by
  unfold jsOr; rw [h]; rfl

theorem validate_some (cfg : Config) (st : St) :
    validate (some cfg) st =
      if jsTruthy cfg.projectPath = false then
        Sum.inl (st, "Release requires a projectPath configuration")
      else
        match cfg.buildPromise with
        | some (BuildPromise.function outcome) => Sum.inr (ensuredSt st, cfg, outcome)
        | _ => Sum.inl (ensuredSt st, "Release requires a buildPromise function") := rfl

theorem perform_inr (config? : Option Config) (oracle : GitOracle) (st₀ st₁ : St)
    (cfg : Config) (build : StepOutcome)
    (h : validate config? st₀ = Sum.inr (st₁, cfg, build)) :
    perform config? oracle st₀ =
      (match mainFlow cfg build oracle st₁ with
       | (st2, Except.ok r) => (st2, Outcome.resolved r)
       | (st2, Except.error info) => rollback oracle info st2) := by
  unfold perform
  rw [h]

/-- The event trace of a fully successful release on the test-harness git
environment, given the picked release and next-development versions. -/
def happyTrace (rv nv : JsStr) : List Event :=
  [Event.ensureFile false,
   Event.git (["status", "--porcelain"]),
   Event.git (["rev-parse", "--verify", "HEAD"]),
   Event.git (["rev-parse", "--abbrev-ref", "HEAD"]),
   Event.writeManifest rv,
   Event.git (["commit", "package.json", "-m", "[release] - releasing " ++ jsShow rv]),
   Event.git (["tag", "-a", "-m", "[release] - " ++ jsShow rv ++ " release", jsShow rv]),
   Event.writeManifest nv,
   Event.git (["commit", "package.json", "-m",
     "[release] - updating dev version to " ++ jsShow nv]),
   Event.git (["push", "origin", jsShow rv]),
   Event.git (["push", "origin", "master"])]

/-- Full evaluation of `perform` on the happy path: any manifest version
passing both `checkVersion` checks, a succeeding build, an absent or
succeeding post-release step, and any (possibly overriding) version
configuration, on the test-harness git environment. -/
theorem perform_happy (rvO nvO : JsStr) (post : Option StepOutcome) (pp : JsStr) (v : String)
    (hpp : jsTruthy pp = true)
    (hpost : post = none ∨ post = some StepOutcome.success)
    (hs : containsSnapshot v = true)
    (h3 : (splitDotsL v.data).length = 3) :
    perform (some ⟨pp, some (BuildPromise.function StepOutcome.success), post, rvO, nvO⟩)
        testOracle (stOf v) =
      (⟨ManifestFile.file (pickNextDevVersion nvO (pickReleaseVersion rvO v)),
        some (pickNextDevVersion nvO (pickReleaseVersion rvO v)),
        happyTrace (pickReleaseVersion rvO v) (pickNextDevVersion nvO (pickReleaseVersion rvO v))⟩,
       Outcome.resolved ⟨pickReleaseVersion rvO v,
         pickNextDevVersion nvO (pickReleaseVersion rvO v)⟩) := by
  have hval : validate
      (some ⟨pp, some (BuildPromise.function StepOutcome.success), post, rvO, nvO⟩) (stOf v)
      = Sum.inr (⟨ManifestFile.file (some v), none, [Event.ensureFile false]⟩,
          ⟨pp, some (BuildPromise.function StepOutcome.success), post, rvO, nvO⟩,
          StepOutcome.success) := by
    rw [validate_some]
    simp [hpp, ensuredSt, stOf]
  have hcv : checkVersion ⟨ManifestFile.file (some v), none, [Event.ensureFile false]⟩
      = (⟨ManifestFile.file (some v), some (some v), [Event.ensureFile false]⟩, Except.ok v) := by
    unfold checkVersion requireManifest
    simp [hs, h3]
  rw [perform_inr _ testOracle _ _ _ _ hval]
  rcases hpost with hp | hp <;> subst hp <;>
    (unfold mainFlow; rw [hcv]; rfl)

/-- C1, counterexample: for the development version `1.2.3-SNAPSHOT` with no
overrides, the code computes `releaseVersion = 1.2.3` — NOT `1.2.4` as the
claim's `X.Y.(Z+1)` formula demands — and next development version
`1.2.4-SNAPSHOT`, not `1.2.5-SNAPSHOT` (node-semver's patch increment on a
prerelease version drops the prerelease without bumping; the repository's own
test asserts exactly these values). -/
theorem C1_counterexample :
    (perform (some cfgAuto) testOracle (stOf ("1.2.3-SNAPSHOT"))).2 =
      Outcome.resolved ⟨some ("1.2.3"), some ("1.2.4-SNAPSHOT")⟩
    ∧ ¬ ((some ("1.2.3") : JsStr) = some ("1.2.4"))
    ∧ ¬ ((some ("1.2.4-SNAPSHOT") : JsStr) = some ("1.2.5-SNAPSHOT")) := by
  exact ⟨by decide, by decide, by decide⟩

/-- C1, amended: for every development version `X.Y.Z-SNAPSHOT`, a perform
call with no explicit overrides computes `releaseVersion = X.Y.Z` (the marker
stripped, patch NOT incremented, because semver's patch increment of a
prerelease merely drops the prerelease) and next development version
`X.Y.(Z+1)-SNAPSHOT`. -/
theorem C1_amended (x y z : Nat) :
    (perform (some cfgAuto) testOracle (stOf (renderCore x y z ++ "-SNAPSHOT"))).2 =
      Outcome.resolved
        ⟨some (renderCore x y z), some (renderCore x y (z + 1) ++ "-SNAPSHOT")⟩ := by
  have h := perform_happy none none none (some ("p")) (renderCore x y z ++ "-SNAPSHOT")
      (by decide) (Or.inl rfl) (containsSnapshot_snapshot x y z) (splitDots_snapshot_len x y z)
  rw [show cfgAuto
        = ⟨some ("p"), some (BuildPromise.function StepOutcome.success), none, none, none⟩
      from rfl]
  rw [h]
  unfold pickNextDevVersion pickReleaseVersion
  rw [jsOr_none, jsOr_none, semverIncPatch_snapshot]
  simp [jsShow, semverIncPatch_renderCore]

/-- C6, counterexample: `1.2-SNAPSHOT.3` does NOT have exactly three numeric
components (its numeric portion is `1.2`), so the claim asserts failure
before any write or mutating git command — but the whole-string check of
`checkVersion` counts three chunks (`1` / `2-SNAPSHOT` / `3`) and lets the
release proceed: the manifest is rewritten (with the `null` that
`semver.inc` returns for the unparseable version) and a release commit is
issued.  The claim is therefore false as stated. -/
theorem C6_counterexample :
    specHasThreeComponents ("1.2-SNAPSHOT.3") = false
    ∧ hasThreeComponents ("1.2-SNAPSHOT.3") = true
    ∧ Event.writeManifest none
        ∈ (perform (some cfgAuto) testOracle (stOf ("1.2-SNAPSHOT.3"))).1.trace
    ∧ Event.git (["commit", "package.json", "-m", "[release] - releasing null"])
        ∈ (perform (some cfgAuto) testOracle (stOf ("1.2-SNAPSHOT.3"))).1.trace := by
  refine ⟨?_, ?_, ?_, ?_⟩ <;> decide

/-- C6, amended: for every manifest version lacking the SNAPSHOT marker or
whose WHOLE version string does not split into exactly three chunks on the
separator (the check `checkVersion` actually performs), `perform` fails by
rejection before any file is written, before any git command (mutating or
otherwise) is issued, and before any commit — the on-disk manifest is
unchanged and the only trace event is the ensure-file access (which found
the file present).  A version whose whole string has three chunks but whose
numeric portion does not, such as `1.2-SNAPSHOT.3`, is outside this
guarantee: it passes the check and the release proceeds to mutate state. -/
theorem C6_invalid_version (oracle : GitOracle) (v : String) (b : StepOutcome)
    (post : Option StepOutcome) (rv nv pp : JsStr)
    (hpp : jsTruthy pp = true)
    (hbad : containsSnapshot v = false ∨ (splitDotsL v.data).length ≠ 3) :
    perform (some ⟨pp, some (BuildPromise.function b), post, rv, nv⟩) oracle (stOf v) =
      ((⟨ManifestFile.file (some v), some (some v), [Event.ensureFile false]⟩ : St),
       Outcome.rejected
         ("Error: Can not release a non-SNAPSHOT version; update package.json version prior to release"))
    ∨ perform (some ⟨pp, some (BuildPromise.function b), post, rv, nv⟩) oracle (stOf v) =
      ((⟨ManifestFile.file (some v), some (some v), [Event.ensureFile false]⟩ : St),
       Outcome.rejected
         ("Error: Project version must be semver compliant and have a patch version (e.g. 1.0.0-SNAPSHOT)")) := by
  have hval : validate (some ⟨pp, some (BuildPromise.function b), post, rv, nv⟩) (stOf v)
      = Sum.inr (⟨ManifestFile.file (some v), none, [Event.ensureFile false]⟩,
          ⟨pp, some (BuildPromise.function b), post, rv, nv⟩, b) := by
    rw [validate_some]
    simp [hpp, ensuredSt, stOf]
  by_cases hsv : containsSnapshot v = false
  · left
    have hcv : checkVersion ⟨ManifestFile.file (some v), none, [Event.ensureFile false]⟩
        = (⟨ManifestFile.file (some v), some (some v), [Event.ensureFile false]⟩,
           Except.error
             ("Can not release a non-SNAPSHOT version; update package.json version prior to release")) := by
      unfold checkVersion requireManifest
      simp [hsv]
    rw [perform_inr _ oracle _ _ _ _ hval]
    unfold mainFlow
    rw [hcv]
    rfl
  · right
    have h3 : (splitDotsL v.data).length ≠ 3 := by
      rcases hbad with hb | hb
      · exact absurd hb hsv
      · exact hb
    have hsvt : containsSnapshot v = true := by simpa using hsv
    have hcv : checkVersion ⟨ManifestFile.file (some v), none, [Event.ensureFile false]⟩
        = (⟨ManifestFile.file (some v), some (some v), [Event.ensureFile false]⟩,
           Except.error
             ("Project version must be semver compliant and have a patch version (e.g. 1.0.0-SNAPSHOT)")) := by
      unfold checkVersion requireManifest
      simp [hsvt, h3]
    rw [perform_inr _ oracle _ _ _ _ hval]
    unfold mainFlow
    rw [hcv]
    rfl

/-- C6 witness for the amended theorem: the repository's own bad-version test
input `1.0-SNAPSHOT`
(two components) is rejected with the semver-compliance message, with no
write, no git command, and the manifest unchanged. -/
theorem C6_witness :
    perform (some ⟨some ("p"), some (BuildPromise.function StepOutcome.success),
        none, none, none⟩) testOracle (stOf ("1.0-SNAPSHOT")) =
      ((⟨ManifestFile.file (some ("1.0-SNAPSHOT")), some (some ("1.0-SNAPSHOT")),
          [Event.ensureFile false]⟩ : St),
       Outcome.rejected
         ("Error: Can not release a non-SNAPSHOT version; update package.json version prior to release"))
    ∨ perform (some ⟨some ("p"), some (BuildPromise.function StepOutcome.success),
        none, none, none⟩) testOracle (stOf ("1.0-SNAPSHOT")) =
      ((⟨ManifestFile.file (some ("1.0-SNAPSHOT")), some (some ("1.0-SNAPSHOT")),
          [Event.ensureFile false]⟩ : St),
       Outcome.rejected
         ("Error: Project version must be semver compliant and have a patch version (e.g. 1.0.0-SNAPSHOT)")) :=
  C6_invalid_version testOracle ("1.0-SNAPSHOT") StepOutcome.success none none none
    (some ("p")) (by decide) (Or.inr (by decide))

/-! ## Rollback behaviour -/

/-- The reset commands rollback issues: none when no pre-release commit was
recorded, exactly one `git reset --hard` otherwise. -/
def resetCmds (commitId : JsStr) : List Event :=
  if jsTruthy commitId = false then []
  else [Event.git (["reset", "--hard", jsShow commitId])]

/-- The tag-delete commands rollback issues: none when no tag name was
recorded, exactly one `git tag -d` otherwise. -/
def deleteTagCmds (tagName : JsStr) : List Event :=
  if jsTruthy tagName = false then []
  else [Event.git (["tag", "-d", jsShow tagName])]

theorem resetStep_noop (oracle : GitOracle) (c : JsStr) (st : St)
    (h : jsTruthy c = false) : resetStep oracle c st = (st, Except.ok ()) := by
  unfold resetStep; rw [if_pos h]

theorem resetStep_run (oracle : GitOracle) (c : JsStr) (st : St)
    (h : jsTruthy c = true)
    (hok : (oracle (["reset", "--hard", jsShow c])).exitCode = 0) :
    resetStep oracle c st =
      ({ st with trace := st.trace ++ [Event.git (["reset", "--hard", jsShow c])] },
       Except.ok ()) := by
  unfold resetStep
  rw [if_neg (by simp [h])]
  unfold stGit gitRun
  rw [if_neg (by simp [hok])]

theorem deleteTagStep_noop (oracle : GitOracle) (t : JsStr) (st : St)
    (h : jsTruthy t = false) : deleteTagStep oracle t st = (st, Except.ok ()) := by
  unfold deleteTagStep; rw [if_pos h]

theorem deleteTagStep_run (oracle : GitOracle) (t : JsStr) (st : St)
    (h : jsTruthy t = true)
    (hok : (oracle (["tag", "-d", jsShow t])).exitCode = 0) :
    deleteTagStep oracle t st =
      ({ st with trace := st.trace ++ [Event.git (["tag", "-d", jsShow t])] },
       Except.ok ()) := by
  unfold deleteTagStep
  rw [if_neg (by simp [h])]
  unfold stGit gitRun
  rw [if_neg (by simp [hok])]

/-- The catch handler, when its own git commands succeed: it appends exactly
the conditional reset command followed by the conditional tag-delete command
and rejects with the wrapped original error. -/
theorem rollback_ok (oracle : GitOracle) (info : RollbackInfo) (st : St)
    (hreset : jsTruthy info.preReleaseCommit = true →
      (oracle (["reset", "--hard", jsShow info.preReleaseCommit])).exitCode = 0)
    (htag : jsTruthy info.releaseTagName = true →
      (oracle (["tag", "-d", jsShow info.releaseTagName])).exitCode = 0) :
    rollback oracle info st =
      ({ st with trace := st.trace ++ resetCmds info.preReleaseCommit
            ++ deleteTagCmds info.releaseTagName },
       Outcome.rejected ("Error: " ++ info.message)) := by
  unfold rollback
  by_cases h1 : jsTruthy info.preReleaseCommit = false
  · by_cases h2 : jsTruthy info.releaseTagName = false
    · simp only [resetStep_noop, deleteTagStep_noop, h1, h2]
      unfold resetCmds deleteTagCmds
      rw [if_pos h1, if_pos h2]
      simp
    · have h2t : jsTruthy info.releaseTagName = true := by simpa using h2
      simp only [resetStep_noop, h1, deleteTagStep_run, h2t, htag h2t]
      unfold resetCmds deleteTagCmds
      rw [if_pos h1, if_neg (by simp [h2t])]
      simp
  · have h1t : jsTruthy info.preReleaseCommit = true := by simpa using h1
    by_cases h2 : jsTruthy info.releaseTagName = false
    · simp only [resetStep_run, h1t, hreset h1t, deleteTagStep_noop, h2]
      unfold resetCmds deleteTagCmds
      rw [if_neg (by simp [h1t]), if_pos h2]
      simp
    · have h2t : jsTruthy info.releaseTagName = true := by simpa using h2
      simp only [resetStep_run, h1t, hreset h1t, deleteTagStep_run, h2t, htag h2t]
      unfold resetCmds deleteTagCmds
      rw [if_neg (by simp [h1t]), if_neg (by simp [h2t])]

/-- A build step that fails with the repository test's message. -/
def cfgFailBuild : Config :=
  { cfgAuto with
    buildPromise := some (BuildPromise.function (StepOutcome.failure ("build has failed!"))) }

/-- A git environment in which `reset` fails and everything else behaves
like the test harness. -/
def resetFailOracle : GitOracle := fun cmds =>
  match cmds with
  | "reset" :: _ => ⟨1, "", ""⟩
  | ["rev-parse", "--verify", "HEAD"] => ⟨0, "aaaaaaa\n", ""⟩
  | ["rev-parse", "--abbrev-ref", "HEAD"] => ⟨0, "master\n", ""⟩
  | _ => ⟨0, "", ""⟩

set_option maxRecDepth 8192 in
/-- C2, counterexample: when the build fails AND the rollback's hard-reset
itself fails, the error reaching the caller is the reset failure — the
original triggering error ("build has failed!") is replaced and does not
appear in it, so "the original error is re-raised — never swallowed" does not
hold unconditionally. -/
theorem C2_counterexample :
    (perform (some cfgFailBuild) resetFailOracle (stOf ("1.0.0-SNAPSHOT"))).2 =
      Outcome.rejected
        ("Could not execute git reset --hard aaaaaaa (exit code 1); stdout:\n\nstderr:\n")
    ∧ ¬ embeds ("build has failed!")
        ("Could not execute git reset --hard aaaaaaa (exit code 1); stdout:\n\nstderr:\n") := by
  exact ⟨by decide, by decide⟩

/-- C2, amended: for every failure after validation (any rejection of the
main promise chain), `perform` issues at most one hard-reset to the recorded
pre-release commit (a no-op when none was recorded) followed by at most one
tag delete for the recorded release tag (a no-op when none was recorded), in
that order; PROVIDED those rollback commands succeed, it then rejects with an
error wrapping — and embedding verbatim — the original triggering error
(`throw new Error(error)` renders the original as "Error: <original>"); a
failing rollback command instead propagates its own error in place of the
original. -/
theorem C2_rollback (config? : Option Config) (oracle : GitOracle) (st₀ st₁ st₂ : St)
    (cfg : Config) (build : StepOutcome) (info : RollbackInfo)
    (hval : validate config? st₀ = Sum.inr (st₁, cfg, build))
    (hmain : mainFlow cfg build oracle st₁ = (st₂, Except.error info))
    (hreset : jsTruthy info.preReleaseCommit = true →
      (oracle (["reset", "--hard", jsShow info.preReleaseCommit])).exitCode = 0)
    (htag : jsTruthy info.releaseTagName = true →
      (oracle (["tag", "-d", jsShow info.releaseTagName])).exitCode = 0) :
    perform config? oracle st₀ =
      ({ st₂ with trace := st₂.trace ++ resetCmds info.preReleaseCommit
            ++ deleteTagCmds info.releaseTagName },
       Outcome.rejected ("Error: " ++ info.message))
    ∧ embeds info.message ("Error: " ++ info.message)
    ∧ (resetCmds info.preReleaseCommit).length ≤ 1
    ∧ (deleteTagCmds info.releaseTagName).length ≤ 1 := by
  refine ⟨?_, embeds_append_left _ _ _ (embeds_rfl _), ?_, ?_⟩
  · rw [perform_inr _ oracle _ _ _ _ hval, hmain]
    exact rollback_ok oracle info st₂ hreset htag
  · unfold resetCmds; split <;> simp
  · unfold deleteTagCmds; split <;> simp

/-- The state right after validation in the C2 witness scenario. -/
def st1c : St := ⟨ManifestFile.file (some ("1.0.0-SNAPSHOT")), none, [Event.ensureFile false]⟩

/-- The state at the point the failing build rejects in the C2 witness
scenario: release version written, no commit or tag issued yet. -/
def st2c : St :=
  ⟨ManifestFile.file (some ("1.0.0")), some (some ("1.0.0")),
   [Event.ensureFile false,
    Event.git (["status", "--porcelain"]),
    Event.git (["rev-parse", "--verify", "HEAD"]),
    Event.git (["rev-parse", "--abbrev-ref", "HEAD"]),
    Event.writeManifest (some ("1.0.0"))]⟩

/-- C2 witness: the repository test's failing-build scenario, with a healthy
git environment — one reset, no tag delete, wrapped original error. -/
theorem C2_witness :
    perform (some cfgFailBuild) testOracle (stOf ("1.0.0-SNAPSHOT")) =
      ({ st2c with trace := st2c.trace ++ resetCmds (some ("aaaaaaa"))
            ++ deleteTagCmds (none : JsStr) },
       Outcome.rejected ("Error: build has failed!"))
    ∧ embeds ("build has failed!") ("Error: build has failed!")
    ∧ (resetCmds (some ("aaaaaaa"))).length ≤ 1
    ∧ (deleteTagCmds (none : JsStr)).length ≤ 1 :=
  C2_rollback (some cfgFailBuild) testOracle (stOf ("1.0.0-SNAPSHOT")) st1c st2c cfgFailBuild
    (StepOutcome.failure ("build has failed!"))
    ⟨"build has failed!", some ("aaaaaaa"), none⟩
    rfl rfl (fun _ => by decide) (fun h => absurd h (by decide))

/-- The main flow does not distinguish empty-string version overrides from
absent ones: `config.releaseVersion || …` and `config.nextDevVersion || …`
treat every falsy value alike. -/
theorem mainFlow_override_irrel (pp : JsStr) (bp : Option BuildPromise)
    (post : Option StepOutcome) (build : StepOutcome) (oracle : GitOracle) (st : St) :
    mainFlow ⟨pp, bp, post, some (""), some ("")⟩ build oracle st =
      mainFlow ⟨pp, bp, post, none, none⟩ build oracle st := by
  unfold mainFlow pickReleaseVersion pickNextDevVersion
  simp only [jsOr_empty, jsOr_none]

/-- C10: a falsy `releaseVersion`/`nextDevVersion` override (absent, `null`,
or the empty string) is silently ignored — the behaviour is identical to not
supplying the override, and the auto-derived versions are used; a truthy
override takes precedence and flows verbatim into the resolved result. -/
theorem C10_overrides :
    (∀ (pp : JsStr) (bp : Option BuildPromise) (post : Option StepOutcome)
        (oracle : GitOracle) (st : St),
      perform (some ⟨pp, bp, post, some (""), some ("")⟩) oracle st =
        perform (some ⟨pp, bp, post, none, none⟩) oracle st)
    ∧ (∀ (s t v : String), s ≠ "" → t ≠ "" →
        containsSnapshot v = true → (splitDotsL v.data).length = 3 →
      (perform (some ⟨some ("p"), some (BuildPromise.function StepOutcome.success),
          none, some s, some t⟩) testOracle (stOf v)).2 =
        Outcome.resolved ⟨some s, some t⟩) := by
  constructor
  · intro pp bp post oracle st
    by_cases hpp : jsTruthy pp = false
    · unfold perform
      rw [validate_some, validate_some]
      simp [hpp]
    · have hppt : jsTruthy pp = true := by simpa using hpp
      unfold perform
      rw [validate_some, validate_some]
      simp only [hppt, Bool.true_eq_false, if_false]
      cases bp with
      | none => rfl
      | some bb =>
        cases bb with
        | nonFunction => rfl
        | function o =>
          simp only []
          rw [mainFlow_override_irrel pp (some (BuildPromise.function o)) post o oracle
            (ensuredSt st)]
  · intro s t v hs ht hsv h3
    have h := perform_happy (some s) (some t) none (some ("p")) v (by decide) (Or.inl rfl)
      hsv h3
    rw [h]
    unfold pickNextDevVersion pickReleaseVersion
    rw [jsOr_truthy (some t) _ (by simp [jsTruthy, ht]),
        jsOr_truthy (some s) _ (by simp [jsTruthy, hs])]

/-- C10 witness: truthy overrides win; the (falsy-override) equality part is
exercised at a concrete configuration and state as well. -/
theorem C10_witness :
    perform (some ⟨some ("p"), some (BuildPromise.function StepOutcome.success),
        none, some (""), some ("")⟩) testOracle (stOf ("1.2.3-SNAPSHOT")) =
      perform (some ⟨some ("p"), some (BuildPromise.function StepOutcome.success),
        none, none, none⟩) testOracle (stOf ("1.2.3-SNAPSHOT"))
    ∧ (perform (some ⟨some ("p"), some (BuildPromise.function StepOutcome.success),
        none, some ("2.0.0"), some ("3.0.0-SNAPSHOT")⟩) testOracle (stOf ("1.2.3-SNAPSHOT"))).2 =
      Outcome.resolved ⟨some ("2.0.0"), some ("3.0.0-SNAPSHOT")⟩ :=
  ⟨C10_overrides.1 (some ("p")) (some (BuildPromise.function StepOutcome.success)) none
      testOracle (stOf ("1.2.3-SNAPSHOT")),
   C10_overrides.2 ("2.0.0") ("3.0.0-SNAPSHOT") ("1.2.3-SNAPSHOT")
      (by decide) (by decide) (by decide) (by decide)⟩
